import Mathlib

/-!
Shallow embedding of `artemis_II_launch_times.py`.

The repository orchestrates an external ephemeris library (skyfield): it
loads launch-window rows from a CSV file, and for each window computes the
window end, local-time projections, the Moon's topocentric position at the
window start and end, the first moonrise of the window's start date, and
the Moon's illumination phase/percentage at the window start.

Modelling choices:
* A Python `datetime` is a wall-clock reading together with an optional
  fixed UTC offset (`tzinfo`).  The wall clock is measured in integer
  microseconds since an arbitrary epoch (`wall`), the offset in minutes
  (`tz`, `none` for a naive datetime).  The absolute instant an aware
  datetime denotes is `wall - tz * 60e6` microseconds.
* A time zone (`zoneinfo.ZoneInfo`) is a function from absolute instants
  to UTC offsets in minutes, which covers fixed-offset zones and DST zones.
* The skyfield ephemeris is an external collaborator and is modelled as a
  structure of abstract functions (`Ephemeris`): topocentric position
  components, rise/set event search over an interval, geocentric ecliptic
  longitudes and illuminated fraction.  Angles and fractions are rationals.
* Fallible Python code (exceptions) is modelled with `Option`: `none`
  means the call raised and the whole operation aborted.
* `datetime.fromisoformat` and `int` are Python standard-library parsers;
  the loader is parameterized by them as `String → Option _` functions.
-/

/-- Microseconds per minute (`timedelta(minutes=1)`). -/
def uSecPerMinute : Int := 60 * 1000000

/-- Microseconds per day (`timedelta(days=1)`). -/
def uSecPerDay : Int := 86400 * 1000000

/-- A Python `datetime.datetime`: wall-clock fields collapsed to a count of
microseconds, plus the `tzinfo` UTC offset in minutes (`none` = naive). -/
structure PyDateTime where
  wall : Int
  tz : Option Int
deriving Repr, DecidableEq, Inhabited

/-- The absolute instant (microseconds UTC) denoted by an aware datetime:
wall-clock reading minus the UTC offset.  (Only meaningful when `tz` is
present; the code never takes the instant of a naive datetime.) -/
def PyDateTime.instant (d : PyDateTime) : Int :=
  d.wall - (d.tz.getD 0) * uSecPerMinute

/-- `dt.replace(tzinfo=timezone.utc)`: keep the wall-clock fields, stamp the
offset as UTC. -/
def PyDateTime.replaceTzUtc (d : PyDateTime) : PyDateTime :=
  { d with tz := some 0 }

/-- `dt.astimezone(tz)` for an aware `dt`: same instant, wall clock and
offset taken from the target zone at that instant. -/
def PyDateTime.astimezone (d : PyDateTime) (tz : Int → Int) : PyDateTime :=
  { wall := d.instant + tz d.instant * uSecPerMinute, tz := some (tz d.instant) }

/-- `dt + timedelta(microseconds=u)`: datetime arithmetic acts on the
wall-clock fields and keeps `tzinfo`. -/
def PyDateTime.addMicros (d : PyDateTime) (u : Int) : PyDateTime :=
  { d with wall := d.wall + u }

/-- `dt + timedelta(minutes=m)`. -/
def PyDateTime.addMinutes (d : PyDateTime) (m : Int) : PyDateTime :=
  d.addMicros (m * uSecPerMinute)

/-- `a < b` on aware datetimes compares the denoted instants. -/
def PyDateTime.pyLt (a b : PyDateTime) : Prop :=
  a.instant < b.instant

instance (a b : PyDateTime) : Decidable (a.pyLt b) :=
  inferInstanceAs (Decidable (_ < _))

/-- `dt.date()`: the wall-clock calendar day, as a day number (floor of the
wall-clock microsecond count by the length of a day). -/
def PyDateTime.dateOf (d : PyDateTime) : Int :=
  Int.fdiv d.wall uSecPerDay

/-- Midnight UTC of a given day number, as an aware UTC datetime
(`datetime(d.year, d.month, d.day, 0, 0, 0, tzinfo=timezone.utc)`). -/
def midnightUtc (day : Int) : PyDateTime :=
  { wall := day * uSecPerDay, tz := some 0 }

/-- The external ephemeris provider (skyfield + de421): deterministic
functions of the UTC instant (microseconds) and, where relevant, the
observer's geodetic latitude/longitude in degrees.  `riseSet t0 t1 lat lon`
is `almanac.find_discrete` over `[t0, t1]` with the rise/set function of
the Moon at the given location: an ordered list of (instant, event-code)
pairs, where code 1 denotes a rise and 0 a set. -/
structure Ephemeris where
  riseSet : Int → Int → ℚ → ℚ → List (Int × Nat)
  azimuthDeg : Int → ℚ → ℚ → ℚ
  altitudeDeg : Int → ℚ → ℚ → ℚ
  distanceKm : Int → ℚ → ℚ → ℚ
  raHours : Int → ℚ → ℚ → ℚ
  decDeg : Int → ℚ → ℚ → ℚ
  sunEclLonDeg : Int → ℚ
  moonEclLonDeg : Int → ℚ
  fracIlluminated : Int → ℚ

/-- The dict returned by `moon_position`. -/
structure MoonPosition where
  datetime_utc : PyDateTime
  latitude : ℚ
  longitude : ℚ
  azimuth_deg : ℚ
  altitude_deg : ℚ
  distance_km : ℚ
  ra_hours : ℚ
  dec_deg : ℚ
deriving Repr, DecidableEq, Inhabited

/-- `moon_position(dt, latitude, longitude)`: normalize the timestamp
(naive is stamped as UTC, aware is converted to UTC), then delegate the
topocentric apparent position to the provider at that instant. -/
def moon_position (E : Ephemeris) (dt : PyDateTime) (latitude longitude : ℚ) :
    MoonPosition :=
  let dtU := match dt.tz with
    | none => dt.replaceTzUtc
    | some _ => dt.astimezone (fun _ => 0)
  let t := dtU.wall
  { datetime_utc := dtU
    latitude := latitude
    longitude := longitude
    azimuth_deg := E.azimuthDeg t latitude longitude
    altitude_deg := E.altitudeDeg t latitude longitude
    distance_km := E.distanceKm t latitude longitude
    ra_hours := E.raHours t latitude longitude
    dec_deg := E.decDeg t latitude longitude }

/-- `date_or_dt`: `moonrise_for_date` accepts a `datetime.date` or a
`datetime.datetime` (whose time portion it discards). -/
inductive DateOrDatetime where
  | date (day : Int)
  | datetime (dt : PyDateTime)

/-- The scan `for ti, ev in zip(times, events): if ev == 1: return
ti.utc_datetime()` followed by `return None`: first event with code 1, as an
aware UTC datetime. -/
def findRise : List (Int × Nat) → Option PyDateTime
  | [] => none
  | (t, ev) :: rest =>
      if ev = 1 then some { wall := t, tz := some 0 } else findRise rest

/-- `moonrise_for_date(date_or_dt, latitude, longitude)`: take the calendar
date, search the UTC day `[00:00, 24:00)` of that date for rise/set events,
and return the first rise event, or `none` if there is none. -/
def moonrise_for_date (E : Ephemeris) (x : DateOrDatetime)
    (latitude longitude : ℚ) : Option PyDateTime :=
  let d := match x with
    | .datetime dt => dt.dateOf
    | .date day => day
  let start_utc := midnightUtc d
  let end_utc := start_utc.addMicros uSecPerDay
  findRise (E.riseSet start_utc.instant end_utc.instant latitude longitude)

/-- Python float `%` with a positive modulus: `a - b * floor(a / b)`. -/
def pymod (a b : ℚ) : ℚ :=
  a - b * (⌊a / b⌋ : ℤ)

/-- `moon_illumination(dt)`: phase angle `(mlon - slon) % 360` and
illuminated percentage `100 * fraction_illuminated`, both geocentric at the
instant read from the wall-clock fields of `dt` (no tz normalization). -/
def moon_illumination (E : Ephemeris) (dt : PyDateTime) : ℚ × ℚ :=
  let t := dt.wall
  let phase := pymod (E.moonEclLonDeg t - E.sunEclLonDeg t) 360
  let percent := 100 * E.fracIlluminated t
  (phase, percent)

/-- One data row of the CSV file as produced by `csv.DictReader`. -/
structure CsvRow where
  window_start_utc : String
  duration_mins : String
deriving Repr, DecidableEq, Inhabited

/-- A raw launch window as loaded from the CSV. -/
structure LaunchWindow where
  window_start_utc : PyDateTime
  duration_mins : Int
deriving Repr, DecidableEq, Inhabited

/-- The exception-propagating loop `out = []; for x in xs: out.append(f(x))`:
one output per input in order, and a raised exception (`none`) anywhere
aborts the whole loop with no partial result.  (This is `mapM` over
`Option`, written by structural recursion.) -/
def mapAbort (f : α → Option β) : List α → Option (List β)
  | [] => some []
  | a :: l => do
      let b ← f a
      let bs ← mapAbort f l
      pure (b :: bs)

/-- The body of the loader's row loop: `datetime.fromisoformat(...)`
then `.replace(tzinfo=timezone.utc)`, and `int(...)`; a parse failure
raises and aborts the whole load. -/
def parseRow (fromiso : String → Option PyDateTime) (toInt : String → Option Int)
    (row : CsvRow) : Option LaunchWindow := do
  let d ← fromiso row.window_start_utc
  let n ← toInt row.duration_mins
  pure { window_start_utc := d.replaceTzUtc, duration_mins := n }

/-- `load_launch_windows_from_csv(csv_path)`: parse each data row in file
order, appending to the result; any row failure aborts the whole load with
no partial result. -/
def load_launch_windows_from_csv (fromiso : String → Option PyDateTime)
    (toInt : String → Option Int) (rows : List CsvRow) :
    Option (List LaunchWindow) :=
  mapAbort (parseRow fromiso toInt) rows

/-- The enriched record assembled per window by
`calculate_moon_positions_for_launch_windows`. -/
structure EnrichedWindow where
  window_start_utc : PyDateTime
  window_end_utc : PyDateTime
  window_start_local : PyDateTime
  window_end_local : PyDateTime
  duration_mins : Int
  moon_position_start : MoonPosition
  moon_position_end : MoonPosition
  moonrise_utc : Option PyDateTime
  moonrise_local : Option PyDateTime
  moon_illumination : ℚ
  moon_phase : ℚ
deriving Repr, DecidableEq, Inhabited

/-- The body of the enricher's per-window loop.  Note the source reads
`"moonrise_local": moonrise.astimezone(tz)` unconditionally: when
`moonrise_for_date` returned `None` this raises `AttributeError`, modelled
here by the `none` branch. -/
def enrichOne (E : Ephemeris) (tz : Int → Int) (latitude longitude : ℚ)
    (row : LaunchWindow) : Option EnrichedWindow :=
  let dt_start_utc := row.window_start_utc
  let duration := row.duration_mins
  let dt_end_utc := dt_start_utc.addMinutes duration
  let dt_start_local := dt_start_utc.astimezone tz
  let dt_end_local := dt_end_utc.astimezone tz
  let moon_pos_start := moon_position E dt_start_utc latitude longitude
  let moon_pos_end := moon_position E dt_end_utc latitude longitude
  let moonrise := moonrise_for_date E (.date dt_start_utc.dateOf) latitude longitude
  let pi := moon_illumination E dt_start_utc
  match moonrise with
  | none => none
  | some m =>
      some { window_start_utc := dt_start_utc
             window_end_utc := dt_end_utc
             window_start_local := dt_start_local
             window_end_local := dt_end_local
             duration_mins := duration
             moon_position_start := moon_pos_start
             moon_position_end := moon_pos_end
             moonrise_utc := some m
             moonrise_local := some (m.astimezone tz)
             moon_illumination := pi.2
             moon_phase := pi.1 }

/-- `calculate_moon_positions_for_launch_windows(csv_path, latitude,
longitude, local_tz)`: load the rows, then enrich each in order.  A raised
exception anywhere (load parse failure, or the `None`-moonrise
`AttributeError`) aborts the whole call. -/
def calculate_moon_positions_for_launch_windows (E : Ephemeris)
    (fromiso : String → Option PyDateTime) (toInt : String → Option Int)
    (rows : List CsvRow) (latitude longitude : ℚ) (tz : Int → Int) :
    Option (List EnrichedWindow) := do
  let ws ← load_launch_windows_from_csv fromiso toInt rows
  mapAbort (enrichOne E tz latitude longitude) ws

/-! ## Concrete fixtures for witnesses and counterexamples -/

/-- KSC_LAT = 28.57. -/
def klat : ℚ := 2857 / 100

/-- KSC_LON = -80.65. -/
def klon : ℚ := -8065 / 100

/-- The UTC zone as an offset function. -/
def utcTz : Int → Int := fun _ => 0

/-- A fixed-offset stand-in for America/New_York (UTC-5, minutes). -/
def nyTz : Int → Int := fun _ => -300

/-- A concrete provider: every searched day has one rise event 6 hours in
and one set event 18 hours in. -/
def testEph : Ephemeris where
  riseSet := fun t0 _ _ _ => [(t0 + 21600000000, 1), (t0 + 64800000000, 0)]
  azimuthDeg := fun _ _ _ => 135
  altitudeDeg := fun _ _ _ => 45
  distanceKm := fun _ _ _ => 384400
  raHours := fun _ _ _ => 10
  decDeg := fun _ _ _ => 20
  sunEclLonDeg := fun _ => 280
  moonEclLonDeg := fun _ => 100
  fracIlluminated := fun _ => 1 / 2

/-- A concrete provider that reports zero rise/set events for every day. -/
def noRiseEph : Ephemeris where
  riseSet := fun _ _ _ _ => []
  azimuthDeg := fun _ _ _ => 0
  altitudeDeg := fun _ _ _ => 0
  distanceKm := fun _ _ _ => 384400
  raHours := fun _ _ _ => 0
  decDeg := fun _ _ _ => 0
  sunEclLonDeg := fun _ => 0
  moonEclLonDeg := fun _ => 0
  fracIlluminated := fun _ => 0

/-- A concrete model of `datetime.fromisoformat` on the fixture strings:
wall-clock fields become microseconds since the (arbitrary) epoch
2025-01-01T00:00:00, an explicit offset becomes `some` minutes. -/
def testFromiso : String → Option PyDateTime := fun s =>
  if s = "2025-01-01T12:00:00" then some { wall := 43200000000, tz := none }
  else if s = "2025-06-01T03:30:00" then some { wall := 13059000000000, tz := none }
  else if s = "2025-01-01T00:00:00+05:00" then some { wall := 0, tz := some 300 }
  else none

/-- A concrete model of Python `int` on the fixture strings. -/
def testToInt : String → Option Int := fun s =>
  if s = "60" then some 60
  else if s = "90" then some 90
  else if s = "0" then some 0
  else if s = "-15" then some (-15)
  else none


/-! ## Claim theorems -/

/-- Helper: when the enricher's loop body succeeds, the start, end and
duration fields of the record are determined by the input window alone. -/
theorem enrichOne_some_fields (E : Ephemeris) (tz : Int → Int)
    (latitude longitude : ℚ) (row : LaunchWindow) (e : EnrichedWindow)
    (h : enrichOne E tz latitude longitude row = some e) :
    e.window_start_utc = row.window_start_utc ∧
    e.window_end_utc = row.window_start_utc.addMinutes row.duration_mins ∧
    e.duration_mins = row.duration_mins := by
  simp only [enrichOne] at h
  split at h
  · exact absurd h (by simp)
  · cases h
    exact ⟨rfl, rfl, rfl⟩

/-- C3: for every loaded launch window, the enriched record's
`window_end_utc` equals `window_start_utc` plus exactly `duration_mins`
minutes of wall-clock arithmetic — no rounding, no drift. -/
theorem C3_end_is_start_plus_duration (E : Ephemeris) (tz : Int → Int)
    (latitude longitude : ℚ) (row : LaunchWindow) (e : EnrichedWindow)
    (h : enrichOne E tz latitude longitude row = some e) :
    e.window_end_utc = e.window_start_utc.addMinutes row.duration_mins ∧
    e.window_end_utc.wall = e.window_start_utc.wall
      + row.duration_mins * 60 * 1000000 := by
  obtain ⟨h1, h2, _⟩ := enrichOne_some_fields E tz latitude longitude row e h
  constructor
  · rw [h2, h1]
  · rw [h2, h1]
    simp [PyDateTime.addMinutes, PyDateTime.addMicros, uSecPerMinute]
    ring

/-- The first fixture window: starts 12:00 into day 0, 60-minute duration. -/
def window60 : LaunchWindow :=
  { window_start_utc := { wall := 43200000000, tz := some 0 }, duration_mins := 60 }

/-- The enriched record the fixture provider produces for `window60`. -/
def enriched60 : EnrichedWindow :=
  (enrichOne testEph nyTz klat klon window60).getD default

theorem C3_end_is_start_plus_duration_witness :
    enriched60.window_end_utc = enriched60.window_start_utc.addMinutes window60.duration_mins ∧
    enriched60.window_end_utc.wall = enriched60.window_start_utc.wall
      + window60.duration_mins * 60 * 1000000 :=
  C3_end_is_start_plus_duration testEph nyTz klat klon window60 enriched60 (by rfl)

/-- A fixture window with `duration_mins = 0`, as the loader passes zero
durations through unchanged. -/
def window0 : LaunchWindow :=
  { window_start_utc := { wall := 43200000000, tz := some 0 }, duration_mins := 0 }

/-- The enriched record the fixture provider produces for `window0`. -/
def enriched0 : EnrichedWindow :=
  (enrichOne testEph nyTz klat klon window0).getD default

/-- C2 counterexample: a zero-duration window loads and enriches to a
record with `window_end_utc = window_start_utc`, so the claimed invariant
`end_utc > start_utc` fails on it. -/
theorem C2_counterexample_zero_duration :
    load_launch_windows_from_csv testFromiso testToInt
        [{ window_start_utc := "2025-01-01T12:00:00", duration_mins := "0" }]
      = some [window0] ∧
    enrichOne testEph nyTz klat klon window0 = some enriched0 ∧
    ¬ enriched0.window_start_utc.pyLt enriched0.window_end_utc ∧
    enriched0.window_end_utc = enriched0.window_start_utc := by
  have heq : enriched0.window_end_utc = enriched0.window_start_utc := by rfl
  refine ⟨by rfl, by rfl, ?_, heq⟩
  intro hlt
  rw [heq] at hlt
  exact lt_irrefl _ hlt

/-- C2 (amended): the invariant `end_utc > start_utc` holds exactly for
windows with positive `duration_mins`; since `end_utc = start_utc +
duration_mins` minutes, a zero duration gives `end_utc = start_utc`. -/
theorem C2_end_gt_start_of_pos_duration (E : Ephemeris) (tz : Int → Int)
    (latitude longitude : ℚ) (row : LaunchWindow) (e : EnrichedWindow)
    (hd : 0 < row.duration_mins)
    (h : enrichOne E tz latitude longitude row = some e) :
    e.window_start_utc.pyLt e.window_end_utc := by
  obtain ⟨h1, h2, _⟩ := enrichOne_some_fields E tz latitude longitude row e h
  rw [h1, h2]
  simp only [PyDateTime.pyLt, PyDateTime.instant, PyDateTime.addMinutes,
    PyDateTime.addMicros, uSecPerMinute]
  omega

theorem C2_end_gt_start_of_pos_duration_witness :
    enriched60.window_start_utc.pyLt enriched60.window_end_utc :=
  C2_end_gt_start_of_pos_duration testEph nyTz klat klon window60 enriched60
    (by decide) (by rfl)

/-- C6: `moon_position` on a naive timestamp equals `moon_position` on the
same wall clock carrying an explicit UTC offset (a naive input is read as
UTC); and an aware input is converted to UTC before use, preserving the
instant it denotes. -/
theorem C6_naive_read_as_utc (E : Ephemeris) (latitude longitude : ℚ) (w : Int) :
    (moon_position E { wall := w, tz := none } latitude longitude
        = moon_position E { wall := w, tz := some 0 } latitude longitude)
    ∧ ∀ o : Int, moon_position E { wall := w, tz := some o } latitude longitude
        = moon_position E { wall := w - o * uSecPerMinute, tz := some 0 }
            latitude longitude := by
  constructor
  · simp [moon_position, PyDateTime.replaceTzUtc, PyDateTime.astimezone,
      PyDateTime.instant]
  · intro o
    simp [moon_position, PyDateTime.astimezone, PyDateTime.instant]

/-- The fixture row whose start string carries an explicit +05:00 offset. -/
def offsetRow : CsvRow :=
  { window_start_utc := "2025-01-01T00:00:00+05:00", duration_mins := "60" }

/-- C10: on a row whose timestamp string carries an explicit non-UTC offset
(+05:00, i.e. +300 minutes), the loader keeps the wall-clock fields but
overwrites the offset with UTC, so the loaded instant differs from the
instant the string denotes by exactly that offset; `moon_position`, by
contrast, converts an aware input and preserves its instant. -/
theorem C10_loader_discards_offset :
    testFromiso offsetRow.window_start_utc = some { wall := 0, tz := some 300 } ∧
    load_launch_windows_from_csv testFromiso testToInt [offsetRow]
      = some [{ window_start_utc := { wall := 0, tz := some 0 }, duration_mins := 60 }] ∧
    (PyDateTime.mk 0 (some 0)).instant ≠ (PyDateTime.mk 0 (some 300)).instant ∧
    (PyDateTime.mk 0 (some 0)).instant - (PyDateTime.mk 0 (some 300)).instant
      = 300 * uSecPerMinute ∧
    (moon_position testEph (PyDateTime.mk 0 (some 300)) klat klon).datetime_utc.instant
      = (PyDateTime.mk 0 (some 300)).instant := by
  refine ⟨by rfl, by rfl, by decide, by decide, by rfl⟩


/-- Helper: a row whose timestamp or duration fails to parse makes the
loop body raise. -/
theorem parseRow_none (fromiso : String → Option PyDateTime)
    (toInt : String → Option Int) (r : CsvRow)
    (hf : fromiso r.window_start_utc = none ∨ toInt r.duration_mins = none) :
    parseRow fromiso toInt r = none := by
  rcases hf with h | h
  · simp [parseRow, h]
  · cases hfi : fromiso r.window_start_utc <;> simp [parseRow, hfi, h]

/-- C5: a CSV containing at least one malformed row (timestamp not valid
ISO-8601 or duration not an integer) makes the whole load abort with no
partial result — no rows are skipped, nothing is returned. -/
theorem C5_load_aborts_on_bad_row (fromiso : String → Option PyDateTime)
    (toInt : String → Option Int) (rows : List CsvRow) (r : CsvRow)
    (hr : r ∈ rows)
    (hf : fromiso r.window_start_utc = none ∨ toInt r.duration_mins = none) :
    load_launch_windows_from_csv fromiso toInt rows = none := by
  induction rows with
  | nil => cases hr
  | cons a l ih =>
    rcases List.mem_cons.mp hr with rfl | hmem
    · simp [load_launch_windows_from_csv, mapAbort,
        parseRow_none fromiso toInt r hf]
    · have htail := ih hmem
      simp only [load_launch_windows_from_csv, mapAbort] at htail ⊢
      cases hpa : parseRow fromiso toInt a <;> simp [hpa, htail]

theorem C5_load_aborts_on_bad_row_witness :
    load_launch_windows_from_csv testFromiso testToInt
      [{ window_start_utc := "2025-01-01T12:00:00", duration_mins := "60" },
       { window_start_utc := "not-a-timestamp", duration_mins := "60" }] = none :=
  C5_load_aborts_on_bad_row testFromiso testToInt _
    { window_start_utc := "not-a-timestamp", duration_mins := "60" }
    (by simp) (Or.inl (by rfl))

/-- The window the loader builds from a row, success assumed: parsed
timestamp restamped as UTC, parsed integer duration unchanged. -/
def loadedRowValue (fromiso : String → Option PyDateTime)
    (toInt : String → Option Int) (r : CsvRow) : LaunchWindow :=
  { window_start_utc := ((fromiso r.window_start_utc).getD default).replaceTzUtc
    duration_mins := (toInt r.duration_mins).getD 0 }

/-- C4: when every data row parses (valid ISO-8601 timestamp, integer
duration), the load returns exactly one record per row, in file order,
with each duration passed through unchanged (zero and negative included):
the result is precisely the row-wise image of the input rows. -/
theorem C4_load_is_rowwise_map (fromiso : String → Option PyDateTime)
    (toInt : String → Option Int) (rows : List CsvRow)
    (h : ∀ r ∈ rows, (fromiso r.window_start_utc).isSome = true
        ∧ (toInt r.duration_mins).isSome = true) :
    load_launch_windows_from_csv fromiso toInt rows
      = some (rows.map (loadedRowValue fromiso toInt)) ∧
    (rows.map (loadedRowValue fromiso toInt)).length = rows.length := by
  refine ⟨?_, by simp⟩
  induction rows with
  | nil => rfl
  | cons a l ih =>
    obtain ⟨ha, hn⟩ := h a (List.mem_cons_self a l)
    obtain ⟨d, hd⟩ := Option.isSome_iff_exists.mp ha
    obtain ⟨n, hn2⟩ := Option.isSome_iff_exists.mp hn
    have htail := ih (fun r hr => h r (List.mem_cons_of_mem a hr))
    simp only [load_launch_windows_from_csv, mapAbort] at htail ⊢
    simp [parseRow, hd, hn2, loadedRowValue, htail]

/-- Fixture rows for the loader: a 60-minute, a negative and a zero
duration. -/
def fixtureRows : List CsvRow :=
  [{ window_start_utc := "2025-01-01T12:00:00", duration_mins := "60" },
   { window_start_utc := "2025-06-01T03:30:00", duration_mins := "-15" },
   { window_start_utc := "2025-01-01T12:00:00", duration_mins := "0" }]

theorem C4_load_is_rowwise_map_witness :
    load_launch_windows_from_csv testFromiso testToInt fixtureRows
      = some (fixtureRows.map (loadedRowValue testFromiso testToInt)) ∧
    (fixtureRows.map (loadedRowValue testFromiso testToInt)).length
      = fixtureRows.length :=
  C4_load_is_rowwise_map testFromiso testToInt fixtureRows (by decide)

/-- The event list the provider yields for the UTC calendar day
`[00:00, 24:00)` of a given date at a given location. -/
def dayEvents (E : Ephemeris) (day : Int) (latitude longitude : ℚ) :
    List (Int × Nat) :=
  E.riseSet (midnightUtc day).instant ((midnightUtc day).addMicros uSecPerDay).instant
    latitude longitude

/-- Helper: `moonrise_for_date` on a date is the first-rise scan of that
day's provider events. -/
theorem moonrise_eq_findRise (E : Ephemeris) (day : Int)
    (latitude longitude : ℚ) :
    moonrise_for_date E (.date day) latitude longitude
      = findRise (dayEvents E day latitude longitude) := rfl

/-- Helper: the scan returns `none` exactly when no event carries the rise
code. -/
theorem findRise_eq_none_iff (l : List (Int × Nat)) :
    findRise l = none ↔ ∀ e ∈ l, e.2 ≠ 1 := by
  induction l with
  | nil => simp [findRise]
  | cons a l ih =>
    obtain ⟨t, ev⟩ := a
    by_cases hev : ev = 1 <;> simp [findRise, hev, ih]

/-- Helper: on a chronologically ordered event list the scan returns a rise
event of the list that is no later than any rise event in it. -/
theorem findRise_some_earliest (l : List (Int × Nat))
    (hsort : l.Pairwise (fun a b => a.1 ≤ b.1)) (m : PyDateTime)
    (h : findRise l = some m) :
    m.tz = some 0 ∧ (m.wall, 1) ∈ l ∧
      ∀ e ∈ l, e.2 = 1 → m.wall ≤ e.1 := by
  induction l with
  | nil => simp [findRise] at h
  | cons a l ih =>
    obtain ⟨t, ev⟩ := a
    by_cases hev : ev = 1
    · subst hev
      simp only [findRise, if_pos, Option.some.injEq] at h
      subst h
      refine ⟨rfl, by simp, ?_⟩
      intro e he _
      rcases List.mem_cons.mp he with rfl | hmem
      · exact le_refl _
      · exact (List.pairwise_cons.mp hsort).1 e hmem
    · simp only [findRise, if_neg hev] at h
      obtain ⟨htz, hmem, hmin⟩ := ih (List.pairwise_cons.mp hsort).2 h
      refine ⟨htz, List.mem_cons_of_mem _ hmem, ?_⟩
      intro e he hee
      rcases List.mem_cons.mp he with rfl | hmem2
      · exact absurd hee hev
      · exact hmin e hmem2 hee

/-- C7: `moonrise_for_date` discards the time portion of a datetime input;
and on the UTC calendar day of the given date it returns, when the
provider's (chronologically ordered) events contain a rise, a rise event of
that day no later than any other rise event — ignoring set events — and an
absent result exactly when the day has no rise event. -/
theorem C7_moonrise_first_rise_of_day (E : Ephemeris) (latitude longitude : ℚ)
    (day : Int)
    (hsort : (dayEvents E day latitude longitude).Pairwise (fun a b => a.1 ≤ b.1)) :
    (∀ dt : PyDateTime, moonrise_for_date E (.datetime dt) latitude longitude
        = moonrise_for_date E (.date dt.dateOf) latitude longitude)
    ∧ (∀ m, moonrise_for_date E (.date day) latitude longitude = some m →
        m.tz = some 0 ∧ (m.wall, 1) ∈ dayEvents E day latitude longitude ∧
        ∀ e ∈ dayEvents E day latitude longitude, e.2 = 1 → m.wall ≤ e.1)
    ∧ (moonrise_for_date E (.date day) latitude longitude = none ↔
        ∀ e ∈ dayEvents E day latitude longitude, e.2 ≠ 1) := by
  refine ⟨fun dt => rfl, ?_, ?_⟩
  · intro m h
    rw [moonrise_eq_findRise] at h
    exact findRise_some_earliest _ hsort m h
  · rw [moonrise_eq_findRise]
    exact findRise_eq_none_iff _

theorem C7_moonrise_first_rise_of_day_witness :
    (PyDateTime.mk 21600000000 (some 0)).tz = some 0 ∧
    ((21600000000 : Int), 1) ∈ dayEvents testEph 0 klat klon ∧
    ∀ e ∈ dayEvents testEph 0 klat klon, e.2 = 1 → (21600000000 : Int) ≤ e.1 :=
  (C7_moonrise_first_rise_of_day testEph klat klon 0 (by decide)).2.1
    { wall := 21600000000, tz := some 0 } (by rfl)

/-- Helper: Python `%` by a positive modulus lands in `[0, b)` and differs
from the dividend by an integer multiple of the modulus. -/
theorem pymod_mem_Ico (a b : ℚ) (hb : 0 < b) :
    0 ≤ pymod a b ∧ pymod a b < b ∧ ∃ k : ℤ, pymod a b = a - b * k := by
  have hfr : pymod a b = b * Int.fract (a / b) := by
    rw [pymod, Int.fract]
    field_simp
  refine ⟨?_, ?_, ⟨⌊a / b⌋, rfl⟩⟩
  · rw [hfr]
    exact mul_nonneg hb.le (Int.fract_nonneg _)
  · rw [hfr]
    calc b * Int.fract (a / b) < b * 1 :=
          (mul_lt_mul_left hb).mpr (Int.fract_lt_one _)
      _ = b := mul_one b

/-- C8: `moon_illumination` returns the Sun–Moon geocentric ecliptic
longitude difference normalized into `[0, 360)`, and `100 ×` the provider's
illuminated fraction, which is a percentage in `[0, 100]` whenever the
fraction is a genuine fraction of the disk (between 0 and 1). -/
theorem C8_illumination_phase_normalized (E : Ephemeris) (dt : PyDateTime)
    (h0 : 0 ≤ E.fracIlluminated dt.wall) (h1 : E.fracIlluminated dt.wall ≤ 1) :
    (∃ k : ℤ, (moon_illumination E dt).1
        = E.moonEclLonDeg dt.wall - E.sunEclLonDeg dt.wall - 360 * k)
    ∧ 0 ≤ (moon_illumination E dt).1
    ∧ (moon_illumination E dt).1 < 360
    ∧ (moon_illumination E dt).2 = 100 * E.fracIlluminated dt.wall
    ∧ 0 ≤ (moon_illumination E dt).2
    ∧ (moon_illumination E dt).2 ≤ 100 := by
  obtain ⟨hnn, hlt, k, hk⟩ :=
    pymod_mem_Ico (E.moonEclLonDeg dt.wall - E.sunEclLonDeg dt.wall) 360
      (by norm_num)
  refine ⟨⟨k, ?_⟩, hnn, hlt, rfl, ?_, ?_⟩
  · rw [show (moon_illumination E dt).1
        = pymod (E.moonEclLonDeg dt.wall - E.sunEclLonDeg dt.wall) 360 from rfl,
      hk]
  · have : (moon_illumination E dt).2 = 100 * E.fracIlluminated dt.wall := rfl
    rw [this]
    positivity
  · have : (moon_illumination E dt).2 = 100 * E.fracIlluminated dt.wall := rfl
    rw [this]
    nlinarith

theorem C8_illumination_phase_normalized_witness :
    (∃ k : ℤ, (moon_illumination testEph default).1
        = testEph.moonEclLonDeg (default : PyDateTime).wall
          - testEph.sunEclLonDeg (default : PyDateTime).wall - 360 * k)
    ∧ 0 ≤ (moon_illumination testEph default).1
    ∧ (moon_illumination testEph default).1 < 360
    ∧ (moon_illumination testEph default).2
        = 100 * testEph.fracIlluminated (default : PyDateTime).wall
    ∧ 0 ≤ (moon_illumination testEph default).2
    ∧ (moon_illumination testEph default).2 ≤ 100 :=
  C8_illumination_phase_normalized testEph default (by norm_num [testEph])
    (by norm_num [testEph])

/-- Helper: when the exception-propagating loop succeeds, it produced
exactly one output per input, in order, each output the image of its own
input alone. -/
theorem mapAbort_some_char {α β : Type} (f : α → Option β) (l : List α)
    (r : List β) (h : mapAbort f l = some r) :
    r.length = l.length ∧ ∀ i (hi : i < r.length) (hl : i < l.length),
      f (l.get ⟨i, hl⟩) = some (r.get ⟨i, hi⟩) := by
  induction l generalizing r with
  | nil =>
    simp only [mapAbort, Option.some.injEq] at h
    subst h
    simp
  | cons a l ih =>
    simp only [mapAbort, bind, Option.bind] at h
    cases hfa : f a with
    | none => rw [hfa] at h; simp at h
    | some b =>
      rw [hfa] at h
      cases hml : mapAbort f l with
      | none => rw [hml] at h; simp at h
      | some bs =>
        rw [hml] at h
        simp only [pure, Option.some.injEq] at h
        subst h
        obtain ⟨hlen, hidx⟩ := ih bs hml
        refine ⟨by simp [hlen], ?_⟩
        intro i hi hl
        cases i with
        | zero => simpa using hfa
        | succ n =>
          exact hidx n (by simpa using hi) (by simpa using hl)

/-- C9: whenever the enricher returns a result for a loaded window
sequence, it returns exactly one enriched record per window, in the same
order, and the i-th output is a function of the i-th input window alone
(together with the fixed provider, location and zone) — no cross-window
state. -/
theorem C9_enrich_is_one_to_one (E : Ephemeris)
    (fromiso : String → Option PyDateTime) (toInt : String → Option Int)
    (rows : List CsvRow) (latitude longitude : ℚ) (tz : Int → Int)
    (ws : List LaunchWindow) (out : List EnrichedWindow)
    (hl : load_launch_windows_from_csv fromiso toInt rows = some ws)
    (hc : calculate_moon_positions_for_launch_windows E fromiso toInt rows
        latitude longitude tz = some out) :
    out.length = ws.length ∧
    ∀ i (hi : i < out.length) (hw : i < ws.length),
      enrichOne E tz latitude longitude (ws.get ⟨i, hw⟩)
        = some (out.get ⟨i, hi⟩) := by
  simp only [calculate_moon_positions_for_launch_windows, bind, Option.bind,
    hl] at hc
  exact mapAbort_some_char _ _ _ hc

/-- The windows the fixture rows load to. -/
def pipeWindows : List LaunchWindow :=
  (load_launch_windows_from_csv testFromiso testToInt fixtureRows).getD []

/-- The enriched records of the full fixture pipeline. -/
def pipeOut : List EnrichedWindow :=
  (calculate_moon_positions_for_launch_windows testEph testFromiso testToInt
      fixtureRows klat klon nyTz).getD []

theorem C9_enrich_is_one_to_one_witness :
    pipeOut.length = pipeWindows.length ∧
    ∀ i (hi : i < pipeOut.length) (hw : i < pipeWindows.length),
      enrichOne testEph nyTz klat klon (pipeWindows.get ⟨i, hw⟩)
        = some (pipeOut.get ⟨i, hi⟩) :=
  C9_enrich_is_one_to_one testEph testFromiso testToInt fixtureRows klat klon
    nyTz pipeWindows pipeOut (by rfl) (by rfl)

/-- C1: when the provider reports zero rise events for a window's start
date, the enricher raises (the unguarded `moonrise.astimezone(tz)` on
`None`) instead of producing a record with absent moonrise fields: the
whole per-window computation aborts. -/
theorem C1_none_moonrise_raises (E : Ephemeris) (tz : Int → Int)
    (latitude longitude : ℚ) (row : LaunchWindow)
    (h : ∀ e ∈ dayEvents E row.window_start_utc.dateOf latitude longitude,
        e.2 ≠ 1) :
    enrichOne E tz latitude longitude row = none := by
  have hm : moonrise_for_date E (.date row.window_start_utc.dateOf)
      latitude longitude = none := by
    rw [moonrise_eq_findRise]
    exact (findRise_eq_none_iff _).mpr h
  simp only [enrichOne]
  rw [hm]

theorem C1_none_moonrise_raises_witness :
    enrichOne noRiseEph nyTz klat klon window60 = none ∧
    calculate_moon_positions_for_launch_windows noRiseEph testFromiso
      testToInt fixtureRows klat klon nyTz = none :=
  ⟨C1_none_moonrise_raises noRiseEph nyTz klat klon window60 (by decide),
   by rfl⟩
